import Mathlib

/-!
# Mouse input device and motion asset handler

A shallow embedding of

* `AzFramework/Input/Devices/Mouse/InputDeviceMouse.cpp` (channel bookkeeping, raw event
  queues, platform implementation indirection), and
* `EMotionFX/Code/Source/Integration/Assets/MotionAsset.cpp` (`MotionAssetHandler::OnInitAsset`).

Conventions of the embedding:

* the C++ `float` of raw movement deltas and positions is a type parameter `α` carrying only
  the operations the code applies to it (`+`, `-`, the literal `0`); no algebraic law is
  assumed, so every theorem holds for IEEE arithmetic as for any other interpretation;
* where the value of a `float` expression matters (the distance the cursor has moved), `α`
  is `Float32`, the IEEE 754 binary32 values with round-to-nearest-even arithmetic;
* `AZStd::vector` is `List` (`push_back` appends at the end, `back` is the last element);
* `AZStd::unordered_map` is a list of bindings with distinct keys (`UnorderedMap`); the
  position of a binding in the list is not observable by the theorems;
* a pointer is an `Option`: `none` is `nullptr`;
* functions and classes that the two files call but do not define are parameters
  (`Engine`, the two factories of the constructor, the importer).
-/

namespace AzFramework

/-! ## Containers -/

/-- The bindings of an `AZStd::unordered_map`, at most one for each key. -/
abbrev UnorderedMap (K V : Type) := List (K × V)

/-- The lookup `m.find(k)`: the mapped value, or `none` for `end()`. -/
def UnorderedMap.find {K V : Type} [DecidableEq K] : UnorderedMap K V → K → Option V
  | [], _ => none
  | (k', v) :: rest, k => if k' = k then some v else UnorderedMap.find rest k

/-- The access `m[k]` followed by a mutation `f` through the returned reference: when `k` has
no binding, `operator[]` first inserts the value-initialised `dflt`. -/
def UnorderedMap.subscript {K V : Type} [DecidableEq K] :
    UnorderedMap K V → K → V → (V → V) → UnorderedMap K V
  | [], k, dflt, f => [(k, f dflt)]
  | (k', v) :: rest, k, dflt, f =>
      if k' = k then (k', f v) :: rest else (k', v) :: UnorderedMap.subscript rest k dflt f

/-- The keys of the bindings. -/
def UnorderedMap.keys {K V : Type} (m : UnorderedMap K V) : List K := m.map Prod.fst

/-- The mapped values of the bindings. -/
def UnorderedMap.values {K V : Type} (m : UnorderedMap K V) : List V := m.map Prod.snd

/-- The statement `v.back() += d` on a vector: the last element is replaced by its sum with
`d`. The code only executes it on a vector that is not empty. -/
def addToBack {α : Type} [Add α] : List α → α → List α
  | [], _ => []
  | [x], d => [x + d]
  | x :: y :: rest, d => x :: addToBack (y :: rest) d

/-! ## Identifiers (lines 22-51) -/

/-- Modelled from the spec: the class `InputChannelId` is declared in a header that is not
among the sources. An id is represented by the name it is constructed from, and two ids are
equal when their names are. -/
structure InputChannelId where
  name : String
deriving DecidableEq, Repr

/-- Modelled from the spec: the class `InputDeviceId` is declared in a header that is not
among the sources; as for channels, a device id is represented by its name. -/
structure InputDeviceId where
  name : String
deriving DecidableEq, Repr

/-- Modelled from the spec: the enumeration `SystemCursorState` is declared in a header that
is not among the sources. The code embedded here names only `Unknown`. -/
inductive SystemCursorState where
  | Unknown
  | ConstrainedAndHidden
  | ConstrainedAndVisible
  | UnconstrainedAndHidden
  | UnconstrainedAndVisible
deriving DecidableEq, Repr

/-- Modelled from the spec: `AZ::Vector2` is declared outside the sources; it is a pair of
`float` coordinates. -/
structure Vector2 (α : Type) where
  x : α
  y : α
deriving DecidableEq, Repr

/-- The vector `AZ::Vector2::CreateZero()`. -/
def Vector2.CreateZero {α : Type} [Zero α] : Vector2 α := ⟨0, 0⟩

/-- The coordinate-wise `operator-` of `AZ::Vector2`. -/
instance {α : Type} [Sub α] : Sub (Vector2 α) := ⟨fun a b => ⟨a.x - b.x, a.y - b.y⟩⟩

/-- Modelled from the spec: `InputChannel::PositionData2D` is declared outside the sources;
the code embedded here reads and writes these two members. -/
structure PositionData2D (α : Type) where
  m_normalizedPosition : Vector2 α
  m_normalizedPositionDelta : Vector2 α
deriving DecidableEq, Repr

namespace InputDeviceMouse

/-- The constant `InputDeviceMouse::Id`. -/
def Id : InputDeviceId := ⟨"mouse"⟩

namespace Button

/-- The constant `Button::Left`. -/
def Left : InputChannelId := ⟨"mouse_button_left"⟩
/-- The constant `Button::Right`. -/
def Right : InputChannelId := ⟨"mouse_button_right"⟩
/-- The constant `Button::Middle`. -/
def Middle : InputChannelId := ⟨"mouse_button_middle"⟩
/-- The constant `Button::Other1`. -/
def Other1 : InputChannelId := ⟨"mouse_button_other1"⟩
/-- The constant `Button::Other2`. -/
def Other2 : InputChannelId := ⟨"mouse_button_other2"⟩
/-- The array `Button::All`. -/
def All : List InputChannelId := [Left, Right, Middle, Other1, Other2]

end Button

namespace Movement

/-- The constant `Movement::X`. -/
def X : InputChannelId := ⟨"mouse_delta_x"⟩
/-- The constant `Movement::Y`. -/
def Y : InputChannelId := ⟨"mouse_delta_y"⟩
/-- The constant `Movement::Z`. -/
def Z : InputChannelId := ⟨"mouse_delta_z"⟩
/-- The array `Movement::All`. -/
def All : List InputChannelId := [X, Y, Z]

end Movement

/-- The constant `InputDeviceMouse::SystemCursorPosition`. -/
def SystemCursorPosition : InputChannelId := ⟨"mouse_system_cursor_position"⟩

end InputDeviceMouse

/-! ## State -/

/-- The two channel classes the constructor instantiates. -/
inductive ChannelClass where
  | InputChannelDigitalWithSharedPosition2D
  | InputChannelDeltaWithSharedPosition2D
deriving DecidableEq, Repr

/-- A channel object as the constructor creates it: its class and the id it is given. -/
structure InputChannelObject where
  cls : ChannelClass
  channelId : InputChannelId
deriving DecidableEq, Repr

/-- A pointer to a channel object: `none` is `nullptr`, `some a` the object at address `a`. -/
abbrev ChannelPtr := Option Nat

/-- The expression `aznew T(...)`: the new object is placed after the objects allocated so
far, and its address is returned. -/
def aznew (allocated : List InputChannelObject) (obj : InputChannelObject) :
    ChannelPtr × List InputChannelObject :=
  (some allocated.length, allocated ++ [obj])

/-- The class `InputDeviceMouse::Implementation`: the two raw event queue maps of the base
class, and the values its pure virtual getters return (they are defined by the platform
implementation, which is not among the sources). -/
structure Implementation (α : Type) where
  m_rawButtonEventQueuesById : UnorderedMap InputChannelId (List Bool)
  m_rawMovementEventQueuesById : UnorderedMap InputChannelId (List α)
  IsConnected : Bool
  GetSystemCursorState : SystemCursorState
  GetSystemCursorPositionNormalized : Vector2 α

/-- The class `InputDeviceMouse`. `allocated` lists the channel objects created with `aznew`
(the object at index `a` lives at address `a`); `busConnected` records the connection to the
system cursor request bus. -/
structure InputDeviceMouse (α : Type) where
  m_inputDeviceId : InputDeviceId
  m_allChannelsById : UnorderedMap InputChannelId ChannelPtr
  m_buttonChannelsById : UnorderedMap InputChannelId ChannelPtr
  m_movementChannelsById : UnorderedMap InputChannelId ChannelPtr
  m_cursorPositionChannel : ChannelPtr
  m_cursorPositionData2D : PositionData2D α
  m_pimpl : Option (Implementation α)
  allocated : List InputChannelObject
  busConnected : Bool

/-- The type of `Implementation::Create` and of `CustomCreateFunctionPointer`: a factory that
receives the device and returns a pointer to an implementation, possibly null. -/
abbrev CreateFunction (α : Type) := InputDeviceMouse α → Option (Implementation α)

/-- The functions the mouse device calls and the sources do not define, over a state `W` of
the surrounding engine (the channel objects behind the pointers, the event buses):
`ProcessRawInputEventQueues` at its two instantiations (it receives the raw queues by
reference and the channel map by const reference), `ProcessRawInputEvent` of the cursor
position channel, and `AZ::Vector2::GetDistance`. The channels share the position data, so
it is passed along. -/
structure Engine (α W : Type) where
  ProcessRawButtonEventQueues :
    UnorderedMap InputChannelId (List Bool) → UnorderedMap InputChannelId ChannelPtr →
      PositionData2D α → W → UnorderedMap InputChannelId (List Bool) × W
  ProcessRawMovementEventQueues :
    UnorderedMap InputChannelId (List α) → UnorderedMap InputChannelId ChannelPtr →
      PositionData2D α → W → UnorderedMap InputChannelId (List α) × W
  ProcessRawInputEvent : ChannelPtr → α → PositionData2D α → W → W
  GetDistance : Vector2 α → Vector2 α → α

/-! ## Construction and destruction (lines 57-118) -/

namespace InputDeviceMouse

/-- The member initialiser list of the constructor (lines 58-64). The initial contents of the
shared position data are those of `PositionData2D`s default constructor, a parameter. -/
def initialise {α : Type} (positionData : PositionData2D α) : InputDeviceMouse α :=
  { m_inputDeviceId := Id
    m_allChannelsById := []
    m_buttonChannelsById := []
    m_movementChannelsById := []
    m_cursorPositionChannel := none
    m_cursorPositionData2D := positionData
    m_pimpl := none
    allocated := []
    busConnected := false }

/-- The body of the loop over `Button::All` (lines 69-71). -/
def createButtonChannel {α : Type} (this : InputDeviceMouse α) (channelId : InputChannelId) :
    InputDeviceMouse α :=
  let (channel, allocated) :=
    aznew this.allocated ⟨ChannelClass.InputChannelDigitalWithSharedPosition2D, channelId⟩
  { this with
    allocated := allocated
    m_allChannelsById := this.m_allChannelsById.subscript channelId none (fun _ => channel)
    m_buttonChannelsById :=
      this.m_buttonChannelsById.subscript channelId none (fun _ => channel) }

/-- The body of the loop over `Movement::All` (lines 77-79). -/
def createMovementChannel {α : Type} (this : InputDeviceMouse α) (channelId : InputChannelId) :
    InputDeviceMouse α :=
  let (channel, allocated) :=
    aznew this.allocated ⟨ChannelClass.InputChannelDeltaWithSharedPosition2D, channelId⟩
  { this with
    allocated := allocated
    m_allChannelsById := this.m_allChannelsById.subscript channelId none (fun _ => channel)
    m_movementChannelsById :=
      this.m_movementChannelsById.subscript channelId none (fun _ => channel) }

/-- The creation of the cursor position channel (lines 83-84). -/
def createCursorPositionChannel {α : Type} (this : InputDeviceMouse α) : InputDeviceMouse α :=
  let (channel, allocated) :=
    aznew this.allocated
      ⟨ChannelClass.InputChannelDeltaWithSharedPosition2D, SystemCursorPosition⟩
  let this := { this with allocated := allocated, m_cursorPositionChannel := channel }
  { this with
    m_allChannelsById :=
      this.m_allChannelsById.subscript SystemCursorPosition none
        (fun _ => this.m_cursorPositionChannel) }

/-- The constructor up to line 84: the device as the factory of line 87 receives it. -/
def createChannels {α : Type} (positionData : PositionData2D α) : InputDeviceMouse α :=
  let this := initialise positionData
  let this := Button.All.foldl createButtonChannel this
  let this := Movement.All.foldl createMovementChannel this
  createCursorPositionChannel this

/-- The constructor `InputDeviceMouse::InputDeviceMouse()`. The static member
`Implementation::CustomCreateFunctionPointer` (`none` is `nullptr`) and the platform factory
`Implementation::Create` are parameters. -/
def construct {α : Type} (positionData : PositionData2D α)
    (CustomCreateFunctionPointer : Option (CreateFunction α)) (Create : CreateFunction α) :
    InputDeviceMouse α :=
  let this := createChannels positionData
  let this :=
    { this with
      m_pimpl :=
        match CustomCreateFunctionPointer with
        | some custom => custom this
        | none => Create this }
  { this with busConnected := true }

/-- What the destructor does, in order. -/
structure Destruction (α : Type) where
  busDisconnected : Bool
  deletedImplementation : Option (Implementation α)
  deletedChannels : List Nat

/-- The addresses a sequence of `delete p` statements frees: `delete nullptr` does nothing. -/
def deleteAll (ptrs : List ChannelPtr) : List Nat := ptrs.filterMap id

/-- The destructor `InputDeviceMouse::~InputDeviceMouse()`: the cursor position channel is
deleted first, then the channels of the movement map, then those of the button map. -/
def destruct {α : Type} (this : InputDeviceMouse α) : Destruction α :=
  { busDisconnected := true
    deletedImplementation := this.m_pimpl
    deletedChannels :=
      deleteAll [this.m_cursorPositionChannel]
        ++ deleteAll this.m_movementChannelsById.values
        ++ deleteAll this.m_buttonChannelsById.values }

/-! ## Queries (lines 121-175) -/

/-- The method `InputDeviceMouse::GetInputChannelsById`. -/
def GetInputChannelsById {α : Type} (this : InputDeviceMouse α) :
    UnorderedMap InputChannelId ChannelPtr :=
  this.m_allChannelsById

/-- The method `InputDeviceMouse::IsSupported`. -/
def IsSupported {α : Type} (this : InputDeviceMouse α) : Bool :=
  this.m_pimpl.isSome

/-- The method `InputDeviceMouse::IsConnected`. -/
def IsConnected {α : Type} (this : InputDeviceMouse α) : Bool :=
  match this.m_pimpl with
  | some pimpl => pimpl.IsConnected
  | none => false

/-- The method `InputDeviceMouse::GetSystemCursorState`. -/
def GetSystemCursorState {α : Type} (this : InputDeviceMouse α) : SystemCursorState :=
  match this.m_pimpl with
  | some pimpl => pimpl.GetSystemCursorState
  | none => SystemCursorState.Unknown

/-- The method `InputDeviceMouse::GetSystemCursorPositionNormalized`. -/
def GetSystemCursorPositionNormalized {α : Type} [Zero α] (this : InputDeviceMouse α) :
    Vector2 α :=
  match this.m_pimpl with
  | some pimpl => pimpl.GetSystemCursorPositionNormalized
  | none => Vector2.CreateZero

end InputDeviceMouse

/-! ## The implementation base class (lines 178-240) -/

namespace Implementation

/-- The constructor `Implementation::Implementation`: both queue maps start empty. The values
of the platform getters are parameters. -/
def construct {α : Type} (isConnected : Bool) (systemCursorState : SystemCursorState)
    (systemCursorPositionNormalized : Vector2 α) : Implementation α :=
  { m_rawButtonEventQueuesById := []
    m_rawMovementEventQueuesById := []
    IsConnected := isConnected
    GetSystemCursorState := systemCursorState
    GetSystemCursorPositionNormalized := systemCursorPositionNormalized }

/-- The contents of the raw button queue of an id: empty when the id has no binding. -/
def rawButtonEventQueue {α : Type} (self : Implementation α) (inputChannelId : InputChannelId) :
    List Bool :=
  (self.m_rawButtonEventQueuesById.find inputChannelId).getD []

/-- The contents of the raw movement queue of an id: empty when the id has no binding. -/
def rawMovementEventQueue {α : Type} (self : Implementation α)
    (inputChannelId : InputChannelId) : List α :=
  (self.m_rawMovementEventQueuesById.find inputChannelId).getD []

/-- The method `Implementation::QueueRawButtonEvent`. -/
def QueueRawButtonEvent {α : Type} (self : Implementation α) (inputChannelId : InputChannelId)
    (rawButtonState : Bool) : Implementation α :=
  { self with
    m_rawButtonEventQueuesById :=
      self.m_rawButtonEventQueuesById.subscript inputChannelId []
        (fun rawEventQueue => rawEventQueue ++ [rawButtonState]) }

/-- The method `Implementation::QueueRawMovementEvent`. -/
def QueueRawMovementEvent {α : Type} [Add α] (self : Implementation α)
    (inputChannelId : InputChannelId) (rawMovementDelta : α) : Implementation α :=
  { self with
    m_rawMovementEventQueuesById :=
      self.m_rawMovementEventQueuesById.subscript inputChannelId []
        (fun rawEventQueue =>
          if rawEventQueue.isEmpty then rawEventQueue ++ [rawMovementDelta]
          else addToBack rawEventQueue rawMovementDelta) }

/-- The method `Implementation::ProcessRawEventQueues`, run on the implementation object of
the device `m_inputDevice` (the object `m_pimpl` points to; without one there is no object to
run the method on and nothing happens). -/
def ProcessRawEventQueues {α W : Type} [Add α] [Sub α] [Zero α] (engine : Engine α W)
    (m_inputDevice : InputDeviceMouse α) (world : W) : InputDeviceMouse α × W :=
  match m_inputDevice.m_pimpl with
  | none => (m_inputDevice, world)
  | some self =>
    let oldNormalizedPosition := m_inputDevice.m_cursorPositionData2D.m_normalizedPosition
    let newNormalizedPosition := self.GetSystemCursorPositionNormalized
    let positionData : PositionData2D α :=
      { m_inputDevice.m_cursorPositionData2D with
        m_normalizedPosition := newNormalizedPosition
        m_normalizedPositionDelta := newNormalizedPosition - oldNormalizedPosition }
    let buttonResult :=
      engine.ProcessRawButtonEventQueues self.m_rawButtonEventQueuesById
        m_inputDevice.m_buttonChannelsById positionData world
    let movementResult :=
      engine.ProcessRawMovementEventQueues self.m_rawMovementEventQueuesById
        m_inputDevice.m_movementChannelsById positionData buttonResult.2
    let self :=
      { self with
        m_rawButtonEventQueuesById := buttonResult.1
        m_rawMovementEventQueuesById := movementResult.1 }
    let self :=
      InputDeviceMouse.Movement.All.foldl
        (fun self movementChannelId => self.QueueRawMovementEvent movementChannelId 0) self
    let distanceMoved := engine.GetDistance newNormalizedPosition oldNormalizedPosition
    let world :=
      engine.ProcessRawInputEvent m_inputDevice.m_cursorPositionChannel distanceMoved
        positionData movementResult.2
    ({ m_inputDevice with m_cursorPositionData2D := positionData, m_pimpl := some self }, world)

end Implementation

end AzFramework

/-! ## The motion asset handler (`MotionAsset.cpp`, lines 28-42) -/

namespace EMotionFX

/-- Modelled from the spec: the class `EMotionFX::SkeletalMotion` belongs to the animation
runtime, which is not among the sources. A motion object is what the importer built
(`contents`) and the flag that `SetIsOwnedByRuntime` writes. -/
structure SkeletalMotion (M : Type) where
  contents : M
  m_isOwnedByRuntime : Bool
deriving DecidableEq, Repr

/-- The setter `SkeletalMotion::SetIsOwnedByRuntime`. -/
def SkeletalMotion.SetIsOwnedByRuntime {M : Type} (self : SkeletalMotion M)
    (isOwnedByRuntime : Bool) : SkeletalMotion M :=
  { self with m_isOwnedByRuntime := isOwnedByRuntime }

/-- The importer returned by `EMotionFX::GetImporter()`: `LoadSkeletalMotion` receives the
buffer and its size in bytes and returns a pointer to a new motion, or `nullptr`. -/
structure Importer (M : Type) where
  LoadSkeletalMotion : List Nat → Nat → Option (SkeletalMotion M)

namespace Integration

/-- The members of `MotionAsset` that `OnInitAsset` uses: the native data buffer (a vector of
bytes) and the motion pointer; `toString` is the text `asset.ToString` gives for the asset
that holds the data. -/
structure MotionAsset (M : Type) where
  m_emfxNativeData : List Nat
  m_emfxMotion : Option (SkeletalMotion M)
  toString : String
deriving DecidableEq, Repr

/-- The effect of `OnInitAsset`: the value returned, the asset data afterwards, and the
messages reported with `AZ_Error`. -/
structure OnInitAssetResult (M : Type) where
  returned : Bool
  assetData : MotionAsset M
  errors : List String
deriving DecidableEq, Repr

/-- The method `MotionAssetHandler::OnInitAsset`, on an asset that holds a `MotionAsset`.
`EMotionFXPtr::MakeFromNew` wraps the pointer it is given, the conversion of the pointer
to `bool` tests it against `nullptr`, and `AZ_Error` reports when its condition is false. -/
def MotionAssetHandler.OnInitAsset {M : Type} (importer : Importer M)
    (assetData : MotionAsset M) : OnInitAssetResult M :=
  let assetData :=
    { assetData with
      m_emfxMotion :=
        importer.LoadSkeletalMotion assetData.m_emfxNativeData
          assetData.m_emfxNativeData.length }
  let assetData :=
    match assetData.m_emfxMotion with
    | some motion => { assetData with m_emfxMotion := some (motion.SetIsOwnedByRuntime true) }
    | none => assetData
  let errors :=
    if assetData.m_emfxMotion.isSome then []
    else ["Failed to initialize motion asset " ++ assetData.toString]
  { returned := assetData.m_emfxMotion.isSome, assetData := assetData, errors := errors }

/-- An importer that accepts the buffers starting with the byte 77 and keeps their length. -/
def exampleImporter : Importer Nat :=
  { LoadSkeletalMotion := fun buffer size =>
      if buffer.head? = some 77 then some ⟨size, false⟩ else none }

/-- Asset data holding the given bytes, not yet initialised. -/
def exampleAsset (bytes : List Nat) : MotionAsset Nat :=
  { m_emfxNativeData := bytes, m_emfxMotion := none, toString := "walk.motion" }

end Integration

end EMotionFX

/-! ## Single precision

The type `float` of the engine's platforms: IEEE 754 binary32, every operation rounded to
nearest, ties to even. -/

namespace AzFramework

/-- A value of the C++ type `float`. `finite negative mantissa exponent` is the number
`± mantissa * 2 ^ exponent`; the binary32 values are those with `exponent` from -149 to 104
and `mantissa < 2 ^ 24`, where `mantissa < 2 ^ 23` only for `exponent = -149` (zero and the
subnormal numbers). The NaNs are one value. -/
inductive Float32 where
  | finite (negative : Bool) (mantissa : Nat) (exponent : Int)
  | infinity (negative : Bool)
  | nan
deriving DecidableEq, Repr

namespace Float32

/-- The number of binary digits of `n`, with `fuel` at least that number. -/
def bitLengthAux : Nat → Nat → Nat
  | 0, _ => 0
  | fuel + 1, n => if n = 0 then 0 else bitLengthAux fuel (n / 2) + 1

/-- The number of binary digits of `n`. -/
def bitLength (n : Nat) : Nat := bitLengthAux n n

/-- The value `± mantissa * 2 ^ exponent` for a mantissa of at most 24 digits that rounding
has produced: a mantissa that rounding carried to `2 ^ 24` moves to the next exponent, and a
value beyond the largest exponent overflows to infinity. -/
def pack (negative : Bool) (mantissa : Nat) (exponent : Int) : Float32 :=
  if mantissa = 2 ^ 24 then
    if exponent + 1 > 104 then infinity negative else finite negative (2 ^ 23) (exponent + 1)
  else if exponent > 104 then infinity negative
  else finite negative mantissa exponent

/-- The binary32 value nearest to the exact number `± m * 2 ^ e`, ties to the even
mantissa. -/
def roundNearestEven (negative : Bool) (m : Nat) (e : Int) : Float32 :=
  if m = 0 then finite negative 0 (-149)
  else
    let target : Int := max (e + bitLength m - 24) (-149)
    if target ≤ e then pack negative (m * 2 ^ (e - target).toNat) target
    else
      let shift := (target - e).toNat
      let quotient := m / 2 ^ shift
      let remainder := m % 2 ^ shift
      let half := 2 ^ (shift - 1)
      if half < remainder ∨ (remainder = half ∧ quotient % 2 = 1) then
        pack negative (quotient + 1) target
      else pack negative quotient target

/-- The integer `± m`. -/
def signed (negative : Bool) (m : Nat) : Int := if negative then -(m : Int) else m

/-- The unary `operator-`. -/
def neg : Float32 → Float32
  | finite negative m e => finite (!negative) m e
  | infinity negative => infinity (!negative)
  | nan => nan

/-- The `operator+`: the exact sum, rounded. An exact zero sum is `-0` only when both
operands are negative. -/
def add : Float32 → Float32 → Float32
  | nan, _ => nan
  | _, nan => nan
  | infinity s, infinity t => if s = t then infinity s else nan
  | infinity s, finite _ _ _ => infinity s
  | finite _ _ _, infinity t => infinity t
  | finite s m e, finite t n f =>
    let g := min e f
    let v : Int := signed s (m * 2 ^ (e - g).toNat) + signed t (n * 2 ^ (f - g).toNat)
    if v = 0 then finite (s && t) 0 (-149)
    else roundNearestEven (decide (v < 0)) v.natAbs g

/-- The `operator*`: the exact product, rounded. -/
def mul : Float32 → Float32 → Float32
  | nan, _ => nan
  | _, nan => nan
  | infinity s, infinity t => infinity (s != t)
  | infinity s, finite t n _ => if n = 0 then nan else infinity (s != t)
  | finite s m _, infinity t => if m = 0 then nan else infinity (s != t)
  | finite s m e, finite t n f => roundNearestEven (s != t) (m * n) (e + f)

/-- The integer square root, found digit by digit from the digit `2 ^ k` down. -/
def isqrtAux : Nat → Nat → Nat → Nat
  | 0, _, root => root
  | k + 1, n, root =>
    if (root + 2 ^ k) * (root + 2 ^ k) ≤ n then isqrtAux k n (root + 2 ^ k)
    else isqrtAux k n root

/-- The integer square root: the largest `r` with `r * r ≤ n`. -/
def isqrt (n : Nat) : Nat := isqrtAux (bitLength n) n 0

/-- The function `sqrtf`: the exact square root, rounded. The mantissa is scaled so that the
integer root has more than 24 digits, and one more digit records whether the root is
inexact. -/
def sqrt : Float32 → Float32
  | nan => nan
  | infinity negative => if negative then nan else infinity false
  | finite negative m e =>
    if m = 0 then finite negative 0 (-149)
    else if negative then nan
    else
      let scale : Nat := if e % 2 = 0 then 52 else 53
      let scaled := m * 2 ^ scale
      let root := isqrt scaled
      let sticky := if root * root = scaled then 0 else 1
      roundNearestEven false (2 * root + sticky) ((e - scale) / 2 - 1)

/-- The test `isfinite`. -/
def isFinite : Float32 → Bool
  | finite _ _ _ => true
  | _ => false

/-- The literal `0.0f`. -/
instance : Zero Float32 := ⟨finite false 0 (-149)⟩

instance : Add Float32 := ⟨add⟩

instance : Mul Float32 := ⟨mul⟩

instance : Neg Float32 := ⟨neg⟩

/-- The binary `operator-`: the sum with the negated operand. -/
instance : Sub Float32 := ⟨fun a b => add a (neg b)⟩

end Float32

/-- Modelled from the spec: the method `AZ::Vector2::GetDistance` is defined in the math
library, which is not among the sources, and the spec does not describe it. It is taken to be
the Euclidean distance computed in single precision: the square root of the sum of the
squared coordinate differences, each operation rounded. -/
def Vector2.GetDistance (this v : Vector2 Float32) : Float32 :=
  Float32.sqrt ((this.x - v.x) * (this.x - v.x) + (this.y - v.y) * (this.y - v.y))

end AzFramework

/-! ## Concrete instances

Instances of the parameters over integer deltas, on which the definitions above evaluate. -/

namespace AzFramework

namespace Examples

/-- An implementation object in which two movement deltas have been coalesced for
`Movement::X` and one button event is queued. -/
def implementation : Implementation Int :=
  (((Implementation.construct true SystemCursorState.ConstrainedAndHidden
      (⟨3, 4⟩ : Vector2 Int)).QueueRawMovementEvent InputDeviceMouse.Movement.X 2
      ).QueueRawMovementEvent InputDeviceMouse.Movement.X 5
      ).QueueRawButtonEvent InputDeviceMouse.Button.Left true

/-- Initial position data. -/
def positionData : PositionData2D Int := ⟨⟨1, 1⟩, ⟨0, 0⟩⟩

/-- A device constructed while a custom factory is installed. -/
def deviceWithImplementation : InputDeviceMouse Int :=
  InputDeviceMouse.construct positionData (some fun _ => some implementation) fun _ => none

/-- A device constructed on a platform whose factory returns `nullptr`. -/
def deviceWithoutImplementation : InputDeviceMouse Int :=
  InputDeviceMouse.construct positionData none fun _ => none

/-- An engine whose `ProcessRawInputEventQueues` empties every queue it is given and whose
channels record the raw values they receive; the distance is the taxicab distance. -/
def engine : Engine Int (List (ChannelPtr × Int)) :=
  { ProcessRawButtonEventQueues := fun queues _ _ world =>
      (queues.map fun entry => (entry.1, []), world)
    ProcessRawMovementEventQueues := fun queues _ _ world =>
      (queues.map fun entry => (entry.1, []), world)
    ProcessRawInputEvent := fun channel rawValue _ world => world ++ [(channel, rawValue)]
    GetDistance := fun a b => |a.x - b.x| + |a.y - b.y| }

/-- The `float` 2 ^ -100. -/
def tiny : Float32 := Float32.finite false 8388608 (-123)

/-- The `float` 0.25. -/
def quarter : Float32 := Float32.finite false 8388608 (-25)

/-- The `float` 0.5. -/
def half : Float32 := Float32.finite false 8388608 (-24)

/-- The `float` 0.75. -/
def threeQuarters : Float32 := Float32.finite false 12582912 (-24)

/-- An engine over single precision: `ProcessRawInputEventQueues` empties every queue it is
given, the channels record the raw values they receive, and the distance is
`AZ::Vector2::GetDistance`. -/
def floatEngine : Engine Float32 (List (ChannelPtr × Float32)) :=
  { ProcessRawButtonEventQueues := fun queues _ _ world =>
      (queues.map fun entry => (entry.1, []), world)
    ProcessRawMovementEventQueues := fun queues _ _ world =>
      (queues.map fun entry => (entry.1, []), world)
    ProcessRawInputEvent := fun channel rawValue _ world => world ++ [(channel, rawValue)]
    GetDistance := Vector2.GetDistance }

/-- An implementation object whose platform reports the given cursor position. -/
def floatImplementation (position : Vector2 Float32) : Implementation Float32 :=
  Implementation.construct true SystemCursorState.UnconstrainedAndVisible position

/-- A device whose stored cursor position is `old` and whose platform reports `new`. -/
def floatDevice (old new : Vector2 Float32) : InputDeviceMouse Float32 :=
  InputDeviceMouse.construct ⟨old, ⟨0, 0⟩⟩ (some fun _ => some (floatImplementation new))
    fun _ => none

end Examples

end AzFramework

/-! ## Theorems: containers -/

namespace AzFramework

open InputDeviceMouse

theorem UnorderedMap.find_subscript_self {K V : Type} [DecidableEq K] (m : UnorderedMap K V)
    (k : K) (dflt : V) (f : V → V) :
    UnorderedMap.find (UnorderedMap.subscript m k dflt f) k
      = some (f ((UnorderedMap.find m k).getD dflt)) := by
  induction m with
  | nil => simp [UnorderedMap.subscript, UnorderedMap.find]
  | cons e rest ih =>
    obtain ⟨k', v⟩ := e
    by_cases h : k' = k
    · simp [UnorderedMap.subscript, UnorderedMap.find, h]
    · simp [UnorderedMap.subscript, UnorderedMap.find, h, ih]

theorem UnorderedMap.find_subscript_other {K V : Type} [DecidableEq K] (m : UnorderedMap K V)
    (k k' : K) (dflt : V) (f : V → V) (hne : k' ≠ k) :
    UnorderedMap.find (UnorderedMap.subscript m k dflt f) k' = UnorderedMap.find m k' := by
  induction m with
  | nil =>
    have hne' : k ≠ k' := fun h => hne h.symm
    simp [UnorderedMap.subscript, UnorderedMap.find, hne']
  | cons e rest ih =>
    obtain ⟨k'', v⟩ := e
    by_cases h : k'' = k
    · subst h
      have hne' : k'' ≠ k' := fun h => hne h.symm
      simp [UnorderedMap.subscript, UnorderedMap.find, hne']
    · by_cases h' : k'' = k'
      · subst h'
        simp [UnorderedMap.subscript, UnorderedMap.find, h]
      · simp [UnorderedMap.subscript, UnorderedMap.find, h, h', ih]

/-! ## Theorems: raw event queues -/

namespace Implementation

theorem rawButtonEventQueue_QueueRawButtonEvent {α : Type} (self : Implementation α)
    (inputChannelId : InputChannelId) (rawButtonState : Bool) :
    (self.QueueRawButtonEvent inputChannelId rawButtonState).rawButtonEventQueue inputChannelId
      = self.rawButtonEventQueue inputChannelId ++ [rawButtonState] := by
  simp [QueueRawButtonEvent, rawButtonEventQueue, UnorderedMap.find_subscript_self]

theorem rawButtonEventQueue_foldl {α : Type} (rawButtonStates : List Bool)
    (self : Implementation α) (inputChannelId : InputChannelId) :
    (rawButtonStates.foldl (fun s b => s.QueueRawButtonEvent inputChannelId b)
        self).rawButtonEventQueue inputChannelId
      = self.rawButtonEventQueue inputChannelId ++ rawButtonStates := by
  induction rawButtonStates generalizing self with
  | nil => simp
  | cons b bs ih =>
    rw [List.foldl_cons, ih, rawButtonEventQueue_QueueRawButtonEvent]
    simp

theorem rawMovementEventQueue_QueueRawMovementEvent {α : Type} [Add α]
    (self : Implementation α) (inputChannelId : InputChannelId) (rawMovementDelta : α) :
    (self.QueueRawMovementEvent inputChannelId rawMovementDelta).rawMovementEventQueue
        inputChannelId
      = if (self.rawMovementEventQueue inputChannelId).isEmpty
          then self.rawMovementEventQueue inputChannelId ++ [rawMovementDelta]
          else addToBack (self.rawMovementEventQueue inputChannelId) rawMovementDelta := by
  simp [QueueRawMovementEvent, rawMovementEventQueue, UnorderedMap.find_subscript_self]

theorem rawMovementEventQueue_QueueRawMovementEvent_other {α : Type} [Add α]
    (self : Implementation α) (inputChannelId other : InputChannelId) (rawMovementDelta : α)
    (hne : other ≠ inputChannelId) :
    (self.QueueRawMovementEvent inputChannelId rawMovementDelta).rawMovementEventQueue other
      = self.rawMovementEventQueue other := by
  simp [QueueRawMovementEvent, rawMovementEventQueue,
    UnorderedMap.find_subscript_other _ _ _ _ _ hne]

theorem rawMovementEventQueue_of_empty {α : Type} [Add α] (self : Implementation α)
    (inputChannelId : InputChannelId) (rawMovementDelta : α)
    (hempty : self.rawMovementEventQueue inputChannelId = []) :
    (self.QueueRawMovementEvent inputChannelId rawMovementDelta).rawMovementEventQueue
        inputChannelId = [rawMovementDelta] := by
  rw [rawMovementEventQueue_QueueRawMovementEvent, hempty]
  simp

theorem rawMovementEventQueue_of_single {α : Type} [Add α] (self : Implementation α)
    (inputChannelId : InputChannelId) (sum rawMovementDelta : α)
    (hsingle : self.rawMovementEventQueue inputChannelId = [sum]) :
    (self.QueueRawMovementEvent inputChannelId rawMovementDelta).rawMovementEventQueue
        inputChannelId = [sum + rawMovementDelta] := by
  rw [rawMovementEventQueue_QueueRawMovementEvent, hsingle]
  simp [addToBack]

theorem rawMovementEventQueue_foldl_of_single {α : Type} [Add α] (deltas : List α)
    (self : Implementation α) (inputChannelId : InputChannelId) (sum : α)
    (hsingle : self.rawMovementEventQueue inputChannelId = [sum]) :
    (deltas.foldl (fun s d => s.QueueRawMovementEvent inputChannelId d)
        self).rawMovementEventQueue inputChannelId
      = [deltas.foldl (fun acc d => acc + d) sum] := by
  induction deltas generalizing self sum with
  | nil => simpa using hsingle
  | cons d ds ih =>
    rw [List.foldl_cons, List.foldl_cons]
    exact ih _ _ (rawMovementEventQueue_of_single self inputChannelId sum d hsingle)

/-- C1: raw mouse movement is coalesced, not queued. For an id whose raw movement queue is
empty (no binding, or an empty vector) and a non-empty sequence of deltas `d₁, d₂, …, dₙ`
passed one after the other to `QueueRawMovementEvent` for that id, the queue afterwards holds
exactly one entry, the sum `((d₁ + d₂) + …) + dₙ` taken in arrival order; in particular its
length is 1. -/
theorem QueueRawMovementEvent_coalesces {α : Type} [Add α] (self : Implementation α)
    (inputChannelId : InputChannelId) (d₁ : α) (rest : List α)
    (hempty : self.rawMovementEventQueue inputChannelId = []) :
    ((d₁ :: rest).foldl (fun s d => s.QueueRawMovementEvent inputChannelId d)
        self).rawMovementEventQueue inputChannelId
      = [rest.foldl (fun acc d => acc + d) d₁]
    ∧ (((d₁ :: rest).foldl (fun s d => s.QueueRawMovementEvent inputChannelId d)
        self).rawMovementEventQueue inputChannelId).length = 1 := by
  have h := rawMovementEventQueue_foldl_of_single rest
    (self.QueueRawMovementEvent inputChannelId d₁) inputChannelId d₁
    (rawMovementEventQueue_of_empty self inputChannelId d₁ hempty)
  rw [List.foldl_cons, h]
  simp

/-- C1, at a concrete input: on a freshly constructed implementation, the deltas 3, -5, 7
queued for `Movement::X` leave the single entry `(3 + -5) + 7`. -/
theorem QueueRawMovementEvent_coalesces_witness :
    (Implementation.construct true SystemCursorState.Unknown
        (⟨0, 0⟩ : Vector2 Int)).rawMovementEventQueue Movement.X = []
    ∧ (([3, -5, 7] : List Int).foldl (fun s d => s.QueueRawMovementEvent Movement.X d)
        (Implementation.construct true SystemCursorState.Unknown
          ⟨0, 0⟩)).rawMovementEventQueue Movement.X = [5] :=
  ⟨rfl, (QueueRawMovementEvent_coalesces
    (Implementation.construct true SystemCursorState.Unknown (⟨0, 0⟩ : Vector2 Int))
    Movement.X 3 [-5, 7] rfl).1⟩

/-- C7: raw button events are queued, never coalesced or deduplicated. For every id, every
prior queue and every state `b`, `QueueRawButtonEvent` leaves the queue of the id equal to the
prior queue with `b` appended (so one longer, the earlier entries in their order), also when
`b` equals the last entry; a sequence of calls for one id appends the states in call order,
and starting from an empty queue leaves exactly those states. -/
theorem QueueRawButtonEvent_appends {α : Type} (self : Implementation α)
    (inputChannelId : InputChannelId) :
    (∀ b : Bool,
      (self.QueueRawButtonEvent inputChannelId b).rawButtonEventQueue inputChannelId
          = self.rawButtonEventQueue inputChannelId ++ [b]
      ∧ ((self.QueueRawButtonEvent inputChannelId b).rawButtonEventQueue inputChannelId).length
          = (self.rawButtonEventQueue inputChannelId).length + 1)
    ∧ (∀ (front : List Bool) (b : Bool),
        self.rawButtonEventQueue inputChannelId = front ++ [b] →
        (self.QueueRawButtonEvent inputChannelId b).rawButtonEventQueue inputChannelId
          = front ++ [b, b])
    ∧ (∀ states : List Bool,
        (states.foldl (fun s b => s.QueueRawButtonEvent inputChannelId b)
            self).rawButtonEventQueue inputChannelId
          = self.rawButtonEventQueue inputChannelId ++ states)
    ∧ (∀ states : List Bool,
        self.rawButtonEventQueue inputChannelId = [] →
        (states.foldl (fun s b => s.QueueRawButtonEvent inputChannelId b)
            self).rawButtonEventQueue inputChannelId = states) := by
  refine ⟨fun b => ⟨rawButtonEventQueue_QueueRawButtonEvent self inputChannelId b, ?_⟩,
    fun front b hq => ?_, fun states => rawButtonEventQueue_foldl states self inputChannelId,
    fun states hq => ?_⟩
  · rw [rawButtonEventQueue_QueueRawButtonEvent]
    simp
  · rw [rawButtonEventQueue_QueueRawButtonEvent, hq]
    simp
  · rw [rawButtonEventQueue_foldl, hq]
    simp

/-- C7, at a concrete input: the states true, true, false, false queued for `Button::Left` on
a freshly constructed implementation are all kept, in call order; and queueing `true` again
after `[true]` gives `[true, true]`. -/
theorem QueueRawButtonEvent_appends_witness :
    (([true, true, false, false] : List Bool).foldl
        (fun s b => s.QueueRawButtonEvent Button.Left b)
        (Implementation.construct true SystemCursorState.Unknown
          (⟨0, 0⟩ : Vector2 Int))).rawButtonEventQueue Button.Left
      = [true, true, false, false]
    ∧ (((Implementation.construct true SystemCursorState.Unknown
          (⟨0, 0⟩ : Vector2 Int)).QueueRawButtonEvent Button.Left true).QueueRawButtonEvent
            Button.Left true).rawButtonEventQueue Button.Left = [true, true] :=
  ⟨(QueueRawButtonEvent_appends
      (Implementation.construct true SystemCursorState.Unknown (⟨0, 0⟩ : Vector2 Int))
      Button.Left).2.2.2 [true, true, false, false] rfl,
   (QueueRawButtonEvent_appends
      ((Implementation.construct true SystemCursorState.Unknown
        (⟨0, 0⟩ : Vector2 Int)).QueueRawButtonEvent Button.Left true)
      Button.Left).2.1 [] true rfl⟩

end Implementation

end AzFramework

/-! ## Theorems: the device -/

namespace AzFramework

open InputDeviceMouse

namespace InputDeviceMouse

theorem createChannels_m_allChannelsById {α : Type} (positionData : PositionData2D α) :
    (createChannels positionData).m_allChannelsById
      = [(Button.Left, some 0), (Button.Right, some 1), (Button.Middle, some 2),
         (Button.Other1, some 3), (Button.Other2, some 4), (Movement.X, some 5),
         (Movement.Y, some 6), (Movement.Z, some 7), (SystemCursorPosition, some 8)] := rfl

theorem createChannels_m_buttonChannelsById {α : Type} (positionData : PositionData2D α) :
    (createChannels positionData).m_buttonChannelsById
      = [(Button.Left, some 0), (Button.Right, some 1), (Button.Middle, some 2),
         (Button.Other1, some 3), (Button.Other2, some 4)] := rfl

theorem createChannels_m_movementChannelsById {α : Type} (positionData : PositionData2D α) :
    (createChannels positionData).m_movementChannelsById
      = [(Movement.X, some 5), (Movement.Y, some 6), (Movement.Z, some 7)] := rfl

theorem createChannels_m_cursorPositionChannel {α : Type} (positionData : PositionData2D α) :
    (createChannels positionData).m_cursorPositionChannel = some 8 := rfl

/-- C2: without a platform implementation (`m_pimpl` null) `IsSupported` and `IsConnected`
return false, `GetSystemCursorState` returns `Unknown` and
`GetSystemCursorPositionNormalized` the zero vector; with one, `IsSupported` returns true and
each of the other three getters returns what the method of the same name of the
implementation returns. -/
theorem getters_follow_pimpl {α : Type} [Zero α] (this : InputDeviceMouse α) :
    (this.m_pimpl = none →
      IsSupported this = false
      ∧ IsConnected this = false
      ∧ GetSystemCursorState this = SystemCursorState.Unknown
      ∧ GetSystemCursorPositionNormalized this = ⟨0, 0⟩)
    ∧ (∀ pimpl : Implementation α, this.m_pimpl = some pimpl →
      IsSupported this = true
      ∧ IsConnected this = pimpl.IsConnected
      ∧ GetSystemCursorState this = pimpl.GetSystemCursorState
      ∧ GetSystemCursorPositionNormalized this = pimpl.GetSystemCursorPositionNormalized) := by
  constructor
  · intro h
    simp [IsSupported, IsConnected, GetSystemCursorState, GetSystemCursorPositionNormalized,
      Vector2.CreateZero, h]
  · intro pimpl h
    simp [IsSupported, IsConnected, GetSystemCursorState, GetSystemCursorPositionNormalized, h]

/-- C2, at concrete inputs: a device without implementation answers false, false, `Unknown`
and the zero vector; a device whose implementation reports connected, `ConstrainedAndHidden`
and the position (3, 4) answers true and those three values. -/
theorem getters_follow_pimpl_witness :
    (IsSupported Examples.deviceWithoutImplementation = false
      ∧ IsConnected Examples.deviceWithoutImplementation = false
      ∧ GetSystemCursorState Examples.deviceWithoutImplementation = SystemCursorState.Unknown
      ∧ GetSystemCursorPositionNormalized Examples.deviceWithoutImplementation = ⟨0, 0⟩)
    ∧ (IsSupported Examples.deviceWithImplementation = true
      ∧ IsConnected Examples.deviceWithImplementation = true
      ∧ GetSystemCursorState Examples.deviceWithImplementation
          = SystemCursorState.ConstrainedAndHidden
      ∧ GetSystemCursorPositionNormalized Examples.deviceWithImplementation = ⟨3, 4⟩) :=
  ⟨(getters_follow_pimpl Examples.deviceWithoutImplementation).1 rfl,
   (getters_follow_pimpl Examples.deviceWithImplementation).2 Examples.implementation rfl⟩

/-- C3: after construction, whatever the factories, `GetInputChannelsById` returns a map with
exactly 9 entries whose keys are the 5 ids of `Button::All`, the 3 ids of `Movement::All` and
`SystemCursorPosition`, the 9 ids pairwise distinct; the button map has exactly the 5 button
ids, the movement map exactly the 3 movement ids, and the two share no key; every channel of
the all-channels map is exactly one of a button-map channel, a movement-map channel or the
cursor position channel, and the channels the destructor deletes are the channels of the
all-channels map, each deleted once. -/
theorem construct_channels {α : Type} (positionData : PositionData2D α)
    (CustomCreateFunctionPointer : Option (CreateFunction α)) (Create : CreateFunction α) :
    let this := construct positionData CustomCreateFunctionPointer Create
    (GetInputChannelsById this).length = 9
    ∧ (GetInputChannelsById this).keys.Perm
        (Button.All ++ Movement.All ++ [SystemCursorPosition])
    ∧ Button.All.length = 5 ∧ Movement.All.length = 3
    ∧ (Button.All ++ Movement.All ++ [SystemCursorPosition]).Nodup
    ∧ this.m_buttonChannelsById.length = 5
    ∧ this.m_buttonChannelsById.keys.Perm Button.All
    ∧ this.m_movementChannelsById.length = 3
    ∧ this.m_movementChannelsById.keys.Perm Movement.All
    ∧ (∀ id ∈ this.m_buttonChannelsById.keys, id ∉ this.m_movementChannelsById.keys)
    ∧ (∀ channel ∈ (GetInputChannelsById this).values,
        channel ≠ none
        ∧ ((channel ∈ this.m_buttonChannelsById.values
              ∧ channel ∉ this.m_movementChannelsById.values
              ∧ channel ≠ this.m_cursorPositionChannel)
          ∨ (channel ∉ this.m_buttonChannelsById.values
              ∧ channel ∈ this.m_movementChannelsById.values
              ∧ channel ≠ this.m_cursorPositionChannel)
          ∨ (channel ∉ this.m_buttonChannelsById.values
              ∧ channel ∉ this.m_movementChannelsById.values
              ∧ channel = this.m_cursorPositionChannel)))
    ∧ (GetInputChannelsById this).values.Nodup
    ∧ (destruct this).deletedChannels.Perm (deleteAll (GetInputChannelsById this).values)
    ∧ (destruct this).deletedChannels.Nodup := by
  intro this
  have hall : this.m_allChannelsById = _ := createChannels_m_allChannelsById positionData
  have hbutton : this.m_buttonChannelsById = _ :=
    createChannels_m_buttonChannelsById positionData
  have hmovement : this.m_movementChannelsById = _ :=
    createChannels_m_movementChannelsById positionData
  have hcursor : this.m_cursorPositionChannel = _ :=
    createChannels_m_cursorPositionChannel positionData
  simp only [GetInputChannelsById, destruct, hall, hbutton, hmovement, hcursor]
  decide

/-- C6: the constructor creates the platform implementation through the indirection. With a
non-null `CustomCreateFunctionPointer`, `m_pimpl` is what the custom factory returns for the
device (whose channels exist and whose `m_pimpl` is still null) and `Implementation::Create`
has no influence on the constructed device; with a null pointer, `m_pimpl` is what
`Implementation::Create` returns for the device. In both cases `IsSupported` is true exactly
when the selected factory returned a non-null implementation. -/
theorem construct_pimpl {α : Type} (positionData : PositionData2D α)
    (custom Create Create' : CreateFunction α) :
    (createChannels positionData).m_pimpl = none
    ∧ (construct positionData (some custom) Create).m_pimpl
        = custom (createChannels positionData)
    ∧ construct positionData (some custom) Create = construct positionData (some custom) Create'
    ∧ (construct positionData none Create).m_pimpl = Create (createChannels positionData)
    ∧ (IsSupported (construct positionData (some custom) Create) = true
        ↔ custom (createChannels positionData) ≠ none)
    ∧ (IsSupported (construct positionData none Create) = true
        ↔ Create (createChannels positionData) ≠ none) := by
  refine ⟨rfl, rfl, rfl, rfl, ?_, ?_⟩
  · show (custom (createChannels positionData)).isSome = true ↔ _
    exact Option.isSome_iff_ne_none
  · show (Create (createChannels positionData)).isSome = true ↔ _
    exact Option.isSome_iff_ne_none

end InputDeviceMouse

end AzFramework

/-! ## Theorems: processing the raw event queues -/

namespace AzFramework

open InputDeviceMouse

theorem addToBack_ne_nil {α : Type} [Add α] (queue : List α) (d : α) (hne : queue ≠ []) :
    addToBack queue d ≠ [] := by
  match queue, hne with
  | [_], _ => simp [addToBack]
  | _ :: _ :: _, _ => simp [addToBack]

theorem UnorderedMap.find_map_nil {K V : Type} [DecidableEq K] (m : UnorderedMap K (List V))
    (k : K) :
    (UnorderedMap.find (m.map fun entry => (entry.1, ([] : List V))) k).getD [] = [] := by
  induction m with
  | nil => rfl
  | cons e rest ih =>
    by_cases h : e.1 = k
    · simp [UnorderedMap.find, h]
    · simpa [UnorderedMap.find, h] using ih

namespace Implementation

theorem rawMovementEventQueue_QueueRawMovementEvent_ne_nil {α : Type} [Add α]
    (self : Implementation α) (inputChannelId : InputChannelId) (rawMovementDelta : α) :
    (self.QueueRawMovementEvent inputChannelId rawMovementDelta).rawMovementEventQueue
        inputChannelId ≠ [] := by
  rw [rawMovementEventQueue_QueueRawMovementEvent]
  split
  · simp
  · rename_i h
    exact addToBack_ne_nil _ _ (by simpa using h)

/-- The loop of lines 232-235 queues a zero delta for X, then Y, then Z. -/
theorem foldl_Movement_All {α : Type} [Add α] [Zero α] (self : Implementation α) :
    Movement.All.foldl
        (fun self movementChannelId => self.QueueRawMovementEvent movementChannelId 0) self
      = ((self.QueueRawMovementEvent Movement.X 0).QueueRawMovementEvent
          Movement.Y 0).QueueRawMovementEvent Movement.Z 0 := rfl

theorem rawMovementEventQueue_requeued {α : Type} [Add α] [Zero α] (self : Implementation α)
    (inputChannelId : InputChannelId) (hmem : inputChannelId ∈ Movement.All) :
    (((self.QueueRawMovementEvent Movement.X 0).QueueRawMovementEvent
        Movement.Y 0).QueueRawMovementEvent Movement.Z 0).rawMovementEventQueue inputChannelId
      = (self.QueueRawMovementEvent inputChannelId 0).rawMovementEventQueue inputChannelId := by
  have hxy : Movement.X ≠ Movement.Y := by decide
  have hxz : Movement.X ≠ Movement.Z := by decide
  have hyz : Movement.Y ≠ Movement.Z := by decide
  simp only [Movement.All, List.mem_cons, List.mem_singleton, List.not_mem_nil, or_false]
    at hmem
  rcases hmem with rfl | rfl | rfl
  · rw [rawMovementEventQueue_QueueRawMovementEvent_other _ _ _ _ hxz,
      rawMovementEventQueue_QueueRawMovementEvent_other _ _ _ _ hxy]
  · rw [rawMovementEventQueue_QueueRawMovementEvent_other _ _ _ _ hyz,
      rawMovementEventQueue_QueueRawMovementEvent,
      rawMovementEventQueue_QueueRawMovementEvent,
      rawMovementEventQueue_QueueRawMovementEvent_other _ _ _ _ hxy.symm]
  · rw [rawMovementEventQueue_QueueRawMovementEvent,
      rawMovementEventQueue_QueueRawMovementEvent,
      rawMovementEventQueue_QueueRawMovementEvent_other _ _ _ _ hyz.symm,
      rawMovementEventQueue_QueueRawMovementEvent_other _ _ _ _ hxz.symm]

theorem single_zero_entry {α : Type} [Add α] [Zero α] (self : Implementation α)
    (inputChannelId : InputChannelId)
    (hzero : self.rawMovementEventQueue inputChannelId = [0]) :
    self.rawMovementEventQueue inputChannelId = [0]
    ∧ (self.rawMovementEventQueue inputChannelId).length = 1
    ∧ ∀ d : α, (self.QueueRawMovementEvent inputChannelId d).rawMovementEventQueue
        inputChannelId = [0 + d] :=
  ⟨hzero, by rw [hzero]; rfl,
    fun d => rawMovementEventQueue_of_single self inputChannelId 0 d hzero⟩

/-- C5: after `ProcessRawEventQueues` has run on the implementation object of a device, the
raw movement queue of every id of `Movement::All` is non-empty, whatever
`ProcessRawInputEventQueues` does. If `ProcessRawInputEventQueues` leaves empty the queue of
every id it has a channel for, and the movement map of the device has a channel for X, Y and
Z (as the constructor makes it), each of those queues holds exactly the single entry `0`,
and a later `QueueRawMovementEvent(id, d)` for such an id leaves exactly the single entry
`0 + d`. -/
theorem ProcessRawEventQueues_requeues_zero {α W : Type} [Add α] [Sub α] [Zero α]
    (engine : Engine α W) (m_inputDevice : InputDeviceMouse α) (self : Implementation α)
    (world : W) (hpimpl : m_inputDevice.m_pimpl = some self) :
    ∃ after : Implementation α,
      (ProcessRawEventQueues engine m_inputDevice world).1.m_pimpl = some after
      ∧ (∀ id ∈ Movement.All, after.rawMovementEventQueue id ≠ [])
      ∧ ((∀ (queues : UnorderedMap InputChannelId (List α))
            (channels : UnorderedMap InputChannelId ChannelPtr) (positionData : PositionData2D α)
            (w : W), ∀ id ∈ channels.keys,
            (UnorderedMap.find
              (engine.ProcessRawMovementEventQueues queues channels positionData w).1 id).getD []
              = []) →
          (∀ id ∈ Movement.All, id ∈ m_inputDevice.m_movementChannelsById.keys) →
          ∀ id ∈ Movement.All,
            after.rawMovementEventQueue id = [0]
            ∧ (after.rawMovementEventQueue id).length = 1
            ∧ ∀ d : α, (after.QueueRawMovementEvent id d).rawMovementEventQueue id
                = [0 + d]) := by
  simp only [ProcessRawEventQueues, hpimpl, foldl_Movement_All]
  refine ⟨_, rfl, fun id hid => ?_, fun hclear hkeys id hid => ?_⟩
  · rw [rawMovementEventQueue_requeued _ id hid]
    exact rawMovementEventQueue_QueueRawMovementEvent_ne_nil _ _ _
  · apply single_zero_entry
    rw [rawMovementEventQueue_requeued _ id hid]
    exact rawMovementEventQueue_of_empty _ id 0 (hclear _ _ _ _ id (hkeys id hid))

/-- C5, at a concrete input: on a device whose implementation holds the coalesced entry 7 for
X and nothing for Y and Z, with an engine that empties the queues, the queues of X, Y and Z
hold `[0]` after `ProcessRawEventQueues`, and queueing 5 for X then leaves `[0 + 5]`. -/
theorem ProcessRawEventQueues_requeues_zero_witness :
    Examples.implementation.rawMovementEventQueue Movement.X = [7]
    ∧ ∃ after : Implementation Int,
        (ProcessRawEventQueues Examples.engine Examples.deviceWithImplementation []).1.m_pimpl
          = some after
        ∧ after.rawMovementEventQueue Movement.X = [0]
        ∧ after.rawMovementEventQueue Movement.Y = [0]
        ∧ after.rawMovementEventQueue Movement.Z = [0]
        ∧ (after.QueueRawMovementEvent Movement.X 5).rawMovementEventQueue Movement.X
            = [0 + 5] := by
  refine ⟨rfl, ?_⟩
  obtain ⟨after, hafter, _, h⟩ :=
    ProcessRawEventQueues_requeues_zero Examples.engine Examples.deviceWithImplementation
      Examples.implementation [] rfl
  have h' := h (fun queues _ _ _ id _ => UnorderedMap.find_map_nil queues id) (by decide)
  exact ⟨after, hafter, (h' Movement.X (by decide)).1, (h' Movement.Y (by decide)).1,
    (h' Movement.Z (by decide)).1, (h' Movement.X (by decide)).2.2 5⟩

/-- The update of the shared cursor position data by `ProcessRawEventQueues` (lines 219-222
and 238-239): with `old` the stored normalized position and `new` the value of the
implementation's `GetSystemCursorPositionNormalized`, afterwards the stored position is `new`
and the stored delta is `new - old`, and the cursor position channel is given the raw value
`new.GetDistance(old)`. -/
theorem ProcessRawEventQueues_cursor_position {α W : Type} [Add α] [Sub α] [Zero α]
    (engine : Engine α W) (m_inputDevice : InputDeviceMouse α) (self : Implementation α)
    (world : W) (hpimpl : m_inputDevice.m_pimpl = some self) :
    (ProcessRawEventQueues engine m_inputDevice world).1.m_cursorPositionData2D
        = ⟨self.GetSystemCursorPositionNormalized,
            self.GetSystemCursorPositionNormalized
              - m_inputDevice.m_cursorPositionData2D.m_normalizedPosition⟩
    ∧ ∃ before : W,
        (ProcessRawEventQueues engine m_inputDevice world).2
          = engine.ProcessRawInputEvent m_inputDevice.m_cursorPositionChannel
              (engine.GetDistance self.GetSystemCursorPositionNormalized
                m_inputDevice.m_cursorPositionData2D.m_normalizedPosition)
              (ProcessRawEventQueues engine m_inputDevice world).1.m_cursorPositionData2D
              before := by
  simp only [ProcessRawEventQueues, hpimpl]
  exact ⟨trivial, _, rfl⟩

end Implementation

end AzFramework

/-! ## Theorems: the distance the cursor has moved -/

namespace AzFramework

open InputDeviceMouse

set_option maxRecDepth 8000

theorem Float32.sub_self_of_isFinite (a : Float32) (hfinite : a.isFinite = true) :
    a - a = 0 := by
  cases a with
  | finite s m e =>
    show Float32.add (Float32.finite s m e) (Float32.neg (Float32.finite s m e))
      = Float32.finite false 0 (-149)
    cases s <;> simp [Float32.add, Float32.neg, Float32.signed]
  | infinity s => simp [Float32.isFinite] at hfinite
  | nan => simp [Float32.isFinite] at hfinite

theorem Vector2.GetDistance_self (v : Vector2 Float32) (hx : v.x.isFinite = true)
    (hy : v.y.isFinite = true) : Vector2.GetDistance v v = 0 := by
  unfold Vector2.GetDistance
  rw [Float32.sub_self_of_isFinite v.x hx, Float32.sub_self_of_isFinite v.y hy]
  decide

namespace Implementation

end Implementation

end AzFramework

/-! ## Theorems: the motion asset handler -/

namespace EMotionFX

namespace Integration

/-- C4: `OnInitAsset` returns true if and only if the importer's `LoadSkeletalMotion`, called
with the native data buffer of the asset and its size, returned a non-null motion. When it
did, the asset's `m_emfxMotion` holds that motion, marked owned by the runtime, and no error
is reported; when it returned null, `OnInitAsset` returns false, `m_emfxMotion` is null (so
no motion has its ownership flag set) and the failure is reported. The native data is left as
it was. -/
theorem OnInitAsset_result {M : Type} (importer : Importer M) (assetData : MotionAsset M) :
    ((MotionAssetHandler.OnInitAsset importer assetData).returned = true
      ↔ importer.LoadSkeletalMotion assetData.m_emfxNativeData
          assetData.m_emfxNativeData.length ≠ none)
    ∧ (∀ motion : SkeletalMotion M,
        importer.LoadSkeletalMotion assetData.m_emfxNativeData
            assetData.m_emfxNativeData.length = some motion →
        (MotionAssetHandler.OnInitAsset importer assetData).returned = true
        ∧ (MotionAssetHandler.OnInitAsset importer assetData).assetData.m_emfxMotion
            = some ⟨motion.contents, true⟩
        ∧ (MotionAssetHandler.OnInitAsset importer assetData).errors = [])
    ∧ (importer.LoadSkeletalMotion assetData.m_emfxNativeData
            assetData.m_emfxNativeData.length = none →
        (MotionAssetHandler.OnInitAsset importer assetData).returned = false
        ∧ (MotionAssetHandler.OnInitAsset importer assetData).assetData.m_emfxMotion = none
        ∧ (MotionAssetHandler.OnInitAsset importer assetData).errors
            = ["Failed to initialize motion asset " ++ assetData.toString])
    ∧ (MotionAssetHandler.OnInitAsset importer assetData).assetData.m_emfxNativeData
        = assetData.m_emfxNativeData := by
  unfold MotionAssetHandler.OnInitAsset
  cases h : importer.LoadSkeletalMotion assetData.m_emfxNativeData
      assetData.m_emfxNativeData.length with
  | none => simp
  | some motion => simp [SkeletalMotion.SetIsOwnedByRuntime]

/-- C4, at concrete inputs: the importer accepts the buffer 77, 1, 2 and `OnInitAsset`
returns true with the motion owned by the runtime; it rejects the buffer 1, 2 and
`OnInitAsset` returns false with a null motion. -/
theorem OnInitAsset_result_witness :
    ((MotionAssetHandler.OnInitAsset exampleImporter (exampleAsset [77, 1, 2])).returned = true
      ∧ (MotionAssetHandler.OnInitAsset exampleImporter
          (exampleAsset [77, 1, 2])).assetData.m_emfxMotion = some ⟨3, true⟩
      ∧ (MotionAssetHandler.OnInitAsset exampleImporter (exampleAsset [77, 1, 2])).errors = [])
    ∧ ((MotionAssetHandler.OnInitAsset exampleImporter (exampleAsset [1, 2])).returned = false
      ∧ (MotionAssetHandler.OnInitAsset exampleImporter
          (exampleAsset [1, 2])).assetData.m_emfxMotion = none
      ∧ (MotionAssetHandler.OnInitAsset exampleImporter (exampleAsset [1, 2])).errors
          = ["Failed to initialize motion asset " ++ (exampleAsset [1, 2]).toString]) :=
  ⟨(OnInitAsset_result exampleImporter (exampleAsset [77, 1, 2])).2.1 ⟨3, false⟩ rfl,
   (OnInitAsset_result exampleImporter (exampleAsset [1, 2])).2.2.1 rfl⟩

end Integration

end EMotionFX
